import Mathlib

/-!
Shallow embedding of `src/rate_limit_mcp/main.py` (a FastMCP rate-limit
server built on pyrate_limiter and Redis).  Python strings are modelled as
`List Char`, Python `int` as `Int`, exceptions as an explicit error type.
The external collaborators (Redis, pyrate_limiter's `Limiter.try_acquire`,
FastMCP) are kept abstract: a `Limiter` is a state transformer on an
abstract store type, exactly the interface `main.py` uses.
-/

set_option autoImplicit false

/-- Exceptions the Python code in `main.py` can raise. -/
inductive PyError where
  /-- `ValueError: not enough values to unpack` from `limit.split("/")`. -/
  | valueErrorUnpackTooFew : PyError
  /-- `ValueError: too many values to unpack` from `limit.split("/")`. -/
  | valueErrorUnpackTooMany : PyError
  /-- `ValueError: invalid literal for int()` from `int(...)`. -/
  | valueErrorInt : PyError
  /-- `IndexError` from `interval[-1]` on an empty string. -/
  | indexError : PyError
  /-- `KeyError` from a dict subscript with an absent key. -/
  | keyError : String → PyError
  /-- `NameError` from reading a never-assigned closure variable. -/
  | nameError : PyError
deriving DecidableEq

/-- pyrate_limiter's `Rate(limit, interval)`: a plain pair of ints, the
interval measured in the library's base unit (milliseconds). -/
structure Rate where
  limit : Int
  interval : Int
deriving DecidableEq

namespace Duration

/-- pyrate_limiter `Duration.SECOND` (milliseconds). -/
def SECOND : Int := 1000

/-- pyrate_limiter `Duration.MINUTE` (milliseconds). -/
def MINUTE : Int := 60000

/-- pyrate_limiter `Duration.HOUR` (milliseconds). -/
def HOUR : Int := 3600000

/-- pyrate_limiter `Duration.DAY` (milliseconds). -/
def DAY : Int := 86400000

/-- pyrate_limiter `Duration.WEEK` (milliseconds). -/
def WEEK : Int := 604800000

end Duration

/-- Python `str.split(sep)` for a one-character separator: splits at every
occurrence, keeping empty pieces (`"".split(sep) == [""]`). -/
def pySplit (sep : Char) : List Char → List (List Char)
  | [] => [[]]
  | c :: rest =>
    let r := pySplit sep rest
    if c = sep then [] :: r
    else
      match r with
      | [] => [[c]]
      | h :: t => (c :: h) :: t

/-- Numeric value of a digit string, most significant digit first. -/
def digitsVal (cs : List Char) : Nat :=
  cs.foldl (fun a c => a * 10 + (c.toNat - 48)) 0

/-- Python `int(s)` on the strings this program feeds it: an optional
sign followed by a non-empty run of decimal digits parses to its value,
anything else raises `ValueError` (modelled as `none`). -/
def pyInt (s : List Char) : Option Int :=
  match s with
  | [] => none
  | c :: rest =>
    if c = '-' then
      if rest ≠ [] ∧ rest.all Char.isDigit then some (-(digitsVal rest : Int)) else none
    else if c = '+' then
      if rest ≠ [] ∧ rest.all Char.isDigit then some ((digitsVal rest : Int)) else none
    else if (c :: rest).all Char.isDigit then some ((digitsVal (c :: rest) : Int)) else none

/-- `int(...)` with its `ValueError` made explicit. -/
def pyIntE (s : List Char) : Except PyError Int :=
  match pyInt s with
  | some n => Except.ok n
  | none => Except.error PyError.valueErrorInt

/-- `rates.append(Rate(int(reqs), interval))`: evaluate `int(reqs)` (it can
raise) and build the appended `Rate`. -/
def rateWith (reqs : List Char) (interval : Int) : Except PyError (Option Rate) :=
  match pyInt reqs with
  | none => Except.error PyError.valueErrorInt
  | some r => Except.ok (some { limit := r, interval := interval })

/-- Body of the inner `for limit in limits` loop of `init_buckets`, after
`reqs, interval = limit.split("/")` has succeeded:
`count = interval[:-1]`, `count = int(count) if count else 1`,
`unit = interval[-1]`, then the `match unit` statement.  The `match` has no
default case, so an unrecognized unit appends nothing (`Except.ok none`). -/
def parseLimitParts (reqs interval : List Char) : Except PyError (Option Rate) :=
  let countS := interval.dropLast
  match (if countS = [] then Except.ok 1 else pyIntE countS) with
  | Except.error e => Except.error e
  | Except.ok count =>
    match interval.getLast? with
    | none => Except.error PyError.indexError
    | some unit =>
      if unit = 'c' then rateWith reqs (count * 10)
      else if unit = 's' then rateWith reqs (count * Duration.SECOND)
      else if unit = 'm' then rateWith reqs (count * Duration.MINUTE)
      else if unit = 'h' then rateWith reqs (count * Duration.HOUR)
      else if unit = 'd' then rateWith reqs (count * Duration.DAY)
      else if unit = 'w' then rateWith reqs (count * Duration.WEEK)
      else Except.ok none

/-- One iteration of the inner loop of `init_buckets`:
`reqs, interval = limit.split("/")` (raising `ValueError` unless the split
yields exactly two pieces) followed by `parseLimitParts`. -/
def parseLimit (limit : List Char) : Except PyError (Option Rate) :=
  match pySplit '/' limit with
  | [reqs, interval] => parseLimitParts reqs interval
  | parts =>
    if parts.length < 2 then Except.error PyError.valueErrorUnpackTooFew
    else Except.error PyError.valueErrorUnpackTooMany

/-- `limits = value.split(",")` followed by the inner loop of
`init_buckets`, accumulating the appended rates. -/
def parseValue (value : List Char) : Except PyError (List Rate) :=
  (pySplit ',' value).foldlM
    (fun rates lim =>
      match parseLimit lim with
      | Except.error e => Except.error e
      | Except.ok none => Except.ok rates
      | Except.ok (some r) => Except.ok (rates ++ [r]))
    []

/-- Python `s.startswith(p)`. -/
def pyStartsWith : List Char → List Char → Bool
  | _, [] => true
  | [], _ :: _ => false
  | c :: s, p :: ps => if c = p then pyStartsWith s ps else false

/-- `init_buckets`: scan the environment, and for every variable whose name
starts with the bucket name pre-string (default `BUCKET_`), parse its value
and register the resulting rate list under the stripped name
(`key.removeprefix(...)` drops exactly the matched leading characters;
`LIMITERS[bucket_name] = Limiter(RedisBucket.init(rates, ...))`, and since
the `RedisBucket`/`Limiter` construction is external, an entry is modelled
by the registered name and its rates).  A raised exception propagates and
aborts startup. -/
def init_buckets (env : List (List Char × List Char)) (pfx : List Char) :
    Except PyError (List (List Char × List Rate)) :=
  env.foldlM
    (fun acc kv =>
      if pyStartsWith kv.1 pfx then
        match parseValue kv.2 with
        | Except.error e => Except.error e
        | Except.ok rates => Except.ok (acc ++ [(kv.1.drop pfx.length, rates)])
      else Except.ok acc)
    []

/-- pyrate_limiter's `Limiter`, abstract: `try_acquire(item, blocking)`
transforms the external store state `σ` and returns the grant decision.
This is the whole interface `main.py` uses. -/
structure Limiter (σ : Type) where
  try_acquire : σ → String → Bool → Bool × σ

/-- Mutable process state visible to the tool bodies: the module-level
`LIMITERS` dict (an insertion-ordered association list) and the external
store the limiters act on. -/
structure ServerState (σ : Type) where
  limiters : List (String × Limiter σ)
  store : σ

/-- Python dict subscript `d[k]`: the value at `k`, or `KeyError`. -/
def dictGet {α : Type} : List (String × α) → String → Except PyError α
  | [], k => Except.error (PyError.keyError k)
  | (k', v) :: rest, k => if k' = k then Except.ok v else dictGet rest k

/-- The `rate-limit` tool:
`return LIMITERS[bucket].try_acquire(item, blocking=blocking)`.
The dict subscript may raise `KeyError`; otherwise the limiter's
`try_acquire` runs against the store. -/
def rate_limit {σ : Type} (st : ServerState σ) (bucket : String) (blocking : Bool)
    (item : String) : Except PyError Bool × ServerState σ :=
  match dictGet st.limiters bucket with
  | Except.error e => (Except.error e, st)
  | Except.ok lim =>
    let r := lim.try_acquire st.store item blocking
    (Except.ok r.1, { limiters := st.limiters, store := r.2 })

/-- Body of the closure `inner` defined inside `init_tools`:
`return LIMITERS[key].try_acquire(item, blocking=blocking)`.  `key` is a
free variable of the enclosing `init_tools` frame, read at call time; the
argument `keyCell` is that variable's content when the tool is invoked
(`none` models the unbound state before the loop's first iteration, whose
read would raise `NameError`). -/
def innerTool {σ : Type} (keyCell : Option String) (st : ServerState σ)
    (blocking : Bool) (item : String) : Except PyError Bool × ServerState σ :=
  match keyCell with
  | none => (Except.error PyError.nameError, st)
  | some key =>
    match dictGet st.limiters key with
    | Except.error e => (Except.error e, st)
    | Except.ok lim =>
      let r := lim.try_acquire st.store item blocking
      (Except.ok r.1, { limiters := st.limiters, store := r.2 })

/-- A tool registered with `mcp.tool(inner, name=..., description=...)`.
`run`'s first argument is the content of `init_tools`' variable `key` at
invocation time, because every generated closure references that one shared
variable rather than a per-iteration copy. -/
structure McpTool (σ : Type) where
  name : String
  description : String
  run : Option String → ServerState σ → Bool → String → Except PyError Bool × ServerState σ

/-- `init_tools`: for each key of `LIMITERS`, define the closure `inner`
and register it as tool `limit-{key}`.  The f-strings for `name` and
`description` are evaluated immediately with the current `key`, but every
closure's body reads the same loop variable `key` at call time; the first
component of the result is that variable's final content when the loop is
done (the state in which all later tool invocations run). -/
def init_tools (σ : Type) (keys : List String) : Option String × List (McpTool σ) :=
  keys.foldl
    (fun acc key =>
      (some key,
       acc.2 ++ [{ name := "limit-" ++ key,
                   description := "Acquire a permit for the bucket " ++ key,
                   run := innerTool }]))
    (none, [])

/-! ### Helper lemmas about the Python string primitives -/

theorem digits_no_slash {cs : List Char} (h : cs.all Char.isDigit = true) : '/' ∉ cs := by
  intro hm
  exact absurd (List.all_eq_true.mp h '/' hm) (by decide)

theorem pySplit_eq_single {sep : Char} {xs : List Char} (h : sep ∉ xs) :
    pySplit sep xs = [xs] := by
  induction xs with
  | nil => rfl
  | cons c rest ih =>
    rw [List.mem_cons, not_or] at h
    have hc : ¬(c = sep) := fun e => h.1 e.symm
    simp [pySplit, hc, ih h.2]

theorem pySplit_append {sep : Char} {xs ys : List Char} (h : sep ∉ xs) :
    pySplit sep (xs ++ sep :: ys) = xs :: pySplit sep ys := by
  induction xs with
  | nil => simp [pySplit]
  | cons c rest ih =>
    rw [List.mem_cons, not_or] at h
    have hc : ¬(c = sep) := fun e => h.1 e.symm
    have hr := ih h.2
    simp only [List.cons_append, pySplit, List.append_eq, hr, if_neg hc]

theorem pyInt_digits {cs : List Char} (h1 : cs ≠ []) (h2 : cs.all Char.isDigit = true) :
    pyInt cs = some ((digitsVal cs : Int)) := by
  match cs, h1 with
  | c :: rest, _ =>
    have hall := h2
    simp only [List.all_cons, Bool.and_eq_true] at hall
    have hm : ¬(c = '-') := by rintro rfl; exact absurd hall.1 (by decide)
    have hp : ¬(c = '+') := by rintro rfl; exact absurd hall.1 (by decide)
    simp [pyInt, hm, hp, h2]

theorem parseLimit_split {reqs interval : List Char} (h1 : '/' ∉ reqs) (h2 : '/' ∉ interval) :
    parseLimit (reqs ++ '/' :: interval) = parseLimitParts reqs interval := by
  simp [parseLimit, pySplit_append h1, pySplit_eq_single h2]

theorem dictGet_not_mem {α : Type} {d : List (String × α)} {k : String}
    (h : k ∉ d.map Prod.fst) : dictGet d k = Except.error (PyError.keyError k) := by
  induction d with
  | nil => rfl
  | cons p rest ih =>
    obtain ⟨k', v⟩ := p
    rw [List.map_cons, List.mem_cons, not_or] at h
    have hk : ¬(k' = k) := fun e => h.1 e.symm
    simp [dictGet, hk, ih h.2]

/-- Duration of a recognized time-unit letter, in the library's base unit;
abbreviates the factors used by the `s`, `m`, `h`, `d`, `w` arms of the
`match unit` statement in `init_buckets`. -/
def unitDur (u : Char) : Int :=
  if u = 's' then Duration.SECOND
  else if u = 'm' then Duration.MINUTE
  else if u = 'h' then Duration.HOUR
  else if u = 'd' then Duration.DAY
  else if u = 'w' then Duration.WEEK
  else 0

/-- A limiter that records in the store which bucket's limiter ran; used as
a concrete observation point for the generated tools. -/
def probeLimiter (b : String) : Limiter (List String) :=
  { try_acquire := fun s _ _ => (true, s ++ [b]) }

/-- A limiter over a trivial store, used as a concrete registry entry. -/
def idleLimiter : Limiter Unit :=
  { try_acquire := fun s _ _ => (true, s) }

/-! ### Claims -/

/-- C1: the registered tool names follow the iteration keys, but after
`init_tools` the shared loop variable `key` holds the final key `"b"`, and
invoking the first generated tool (named `limit-a`) runs `try_acquire` on
bucket `"b"`'s limiter: the closures late-bind the loop variable instead of
capturing each bucket's identity. -/
theorem init_tools_late_binding :
    ((init_tools (List String) ["a", "b"]).2.map McpTool.name = ["limit-a", "limit-b"]) ∧
    ((init_tools (List String) ["a", "b"]).1 = some "b") ∧
    (((init_tools (List String) ["a", "b"]).2.get ⟨0, by decide⟩).run
        (init_tools (List String) ["a", "b"]).1
        { limiters := [("a", probeLimiter "a"), ("b", probeLimiter "b")], store := [] } true ""
      = (Except.ok true,
         { limiters := [("a", probeLimiter "a"), ("b", probeLimiter "b")],
           store := ["b"] })) :=
  ⟨rfl, rfl, rfl⟩

/-- C2: on the docstring's own `'-separated example `2/5s:15/m:100/4h`,
`init_buckets` raises an uncaught `ValueError` (the value is split only on
`,`, so the single piece has three `/`), while the same rates separated by
`,` parse into the three expected tiers: the two separators are not
interchangeable. -/
theorem colon_separator_crashes :
    parseValue ("2/5s:15/m:100/4h".toList) = Except.error PyError.valueErrorUnpackTooMany ∧
    parseValue ("2/5s,15/m,100/4h".toList) =
      Except.ok [{ limit := 2, interval := 5000 }, { limit := 15, interval := 60000 },
                 { limit := 100, interval := 14400000 }] :=
  ⟨rfl, rfl⟩

/-- C3 counterexample: the definition `5/s,1/h` — a longer-window tier less
restrictive per window than the shorter one — is parsed without any error
and the bucket is registered, contradicting the claim that construction
fails with `InvalidRateSpec`. -/
theorem redundant_tiers_accepted :
    init_buckets [("BUCKET_x".toList, "5/s,1/h".toList)] ("BUCKET_".toList) =
      Except.ok [("x".toList, [{ limit := 5, interval := 1000 },
                               { limit := 1, interval := 3600000 }])] :=
  rfl

/-- C3 amended: `init_buckets` checks no BucketSpec invariant at all — a
definition whose windows are not increasing (`1/h,5/s`) is likewise parsed
and registered without error; any ordering enforcement is left to the
external pyrate_limiter library. -/
theorem unordered_tiers_accepted :
    init_buckets [("BUCKET_y".toList, "1/h,5/s".toList)] ("BUCKET_".toList) =
      Except.ok [("y".toList, [{ limit := 1, interval := 3600000 },
                               { limit := 5, interval := 1000 }])] :=
  rfl

/-- C4: calling the `rate-limit` tool with an unregistered bucket name
raises `KeyError` on the `LIMITERS` subscript — an error surfaced to the
caller, never the boolean `false` of a denial — and leaves the state
untouched. -/
theorem rate_limit_unregistered_raises {σ : Type} (st : ServerState σ)
    (bucket item : String) (blocking : Bool) (h : bucket ∉ st.limiters.map Prod.fst) :
    rate_limit st bucket blocking item = (Except.error (PyError.keyError bucket), st) ∧
    ∀ b : Bool, (rate_limit st bucket blocking item).1 ≠ Except.ok b := by
  have hd := dictGet_not_mem h
  exact ⟨by simp [rate_limit, hd], fun b => by simp [rate_limit, hd]⟩

/-- Witness for C4 at a registry holding only bucket `foo`. -/
theorem rate_limit_unregistered_raises_witness :
    rate_limit { limiters := [("foo", idleLimiter)], store := () } "bar" true "" =
      (Except.error (PyError.keyError "bar"),
       { limiters := [("foo", idleLimiter)], store := () }) :=
  (rate_limit_unregistered_raises { limiters := [("foo", idleLimiter)], store := () }
    "bar" "" true (by decide)).1

/-- C5 counterexample: the descriptor `5/x` has an unrecognized unit, yet
`parseValue` reports no error — it yields an empty rate list, so the bucket
is registered with no tiers instead of being rejected. -/
theorem unknown_unit_no_error :
    parseValue ("5/x".toList) = Except.ok [] :=
  rfl

/-- C5 amended: a descriptor whose unit letter matches none of the `match`
arms (`c`, `s`, `m`, `h`, `d`, `w`) is silently skipped — the `match` has
no default case, so nothing is appended and no error is raised (the count
before the `/` is not even converted). -/
theorem unknown_unit_skipped (reqs countS : List Char) (u : Char)
    (hreqs : '/' ∉ reqs) (hdig : countS.all Char.isDigit = true)
    (hu : u ≠ 'c' ∧ u ≠ 's' ∧ u ≠ 'm' ∧ u ≠ 'h' ∧ u ≠ 'd' ∧ u ≠ 'w')
    (hus : u ≠ '/') :
    parseLimit (reqs ++ '/' :: (countS ++ [u])) = Except.ok none := by
  have h2 : '/' ∉ countS ++ [u] := by
    intro hm
    rcases List.mem_append.mp hm with h | h
    · exact digits_no_slash hdig h
    · rw [List.mem_singleton] at h
      exact hus h.symm
  rw [parseLimit_split hreqs h2]
  unfold parseLimitParts
  by_cases hc : countS = []
  · subst hc
    simp [List.getLast?_concat, hu.1, hu.2.1, hu.2.2.1, hu.2.2.2.1, hu.2.2.2.2.1,
      hu.2.2.2.2.2]
  · simp [List.dropLast_concat, List.getLast?_concat, hc, pyIntE,
      pyInt_digits hc hdig, hu.1, hu.2.1, hu.2.2.1, hu.2.2.2.1, hu.2.2.2.2.1,
      hu.2.2.2.2.2]

/-- Witness for C5 amended at the descriptor `7/2q`. -/
theorem unknown_unit_skipped_witness :
    parseLimit ("7/2q".toList) = Except.ok none :=
  unknown_unit_skipped ['7'] ['2'] 'q' (by decide) (by decide) (by decide) (by decide)

/-- C6 counterexample: the descriptor `0/s` — count zero, not a positive
integer — is accepted without any error and the bucket is registered with
the tier `Rate(0, 1000)`. -/
theorem zero_count_accepted :
    init_buckets [("BUCKET_z".toList, "0/s".toList)] ("BUCKET_".toList) =
      Except.ok [("z".toList, [{ limit := 0, interval := 1000 }])] :=
  rfl

/-- C6 amended: a non-numeric count (`abc/s`) or number (`5/zs`) and a
descriptor without `/` (`5s`) each raise an uncaught `ValueError`, which is
fatal (when `init_buckets` raises, no registry is produced, so neither the
offending bucket nor later ones are registered) — but the error is Python's
`ValueError`, not an `InvalidRateSpec`, and there is no positivity check:
zero and negative counts are accepted. -/
theorem malformed_descriptor_fatal :
    parseValue ("abc/s".toList) = Except.error PyError.valueErrorInt ∧
    parseValue ("5/zs".toList) = Except.error PyError.valueErrorInt ∧
    parseValue ("5s".toList) = Except.error PyError.valueErrorUnpackTooFew ∧
    init_buckets [("BUCKET_a".toList, "5s".toList), ("BUCKET_b".toList, "1/s".toList)]
        ("BUCKET_".toList) = Except.error PyError.valueErrorUnpackTooFew ∧
    parseValue ("-3/s".toList) = Except.ok [{ limit := -3, interval := 1000 }] :=
  ⟨rfl, rfl, rfl, rfl, rfl⟩

/-- C9: neither an invocation of the `rate-limit` tool nor of a generated
per-bucket tool body changes the `LIMITERS` registry: whatever the bucket
argument, the captured key cell, and the limiter's effect on the external
store, the registry component of the state is returned unchanged. -/
theorem limiters_frame_invariant {σ : Type} (st : ServerState σ) (bucket item : String)
    (blocking : Bool) (cell : Option String) :
    ((rate_limit st bucket blocking item).2).limiters = st.limiters ∧
    ((innerTool cell st blocking item).2).limiters = st.limiters := by
  constructor
  · unfold rate_limit
    cases hd : dictGet st.limiters bucket <;> simp [hd]
  · unfold innerTool
    cases cell with
    | none => rfl
    | some key => cases hd : dictGet st.limiters key <;> simp [hd]

/-- C8: a descriptor `<count>/<number><unit>` with a recognized time unit
parses to a tier whose interval is the number multiplied by the unit's
duration, the number defaulting to 1 when absent (empty `<number>`). -/
theorem rate_window_parsing (reqs countS : List Char) (u : Char) (r : Int)
    (hr : pyInt reqs = some r) (hreqs : '/' ∉ reqs)
    (hdig : countS.all Char.isDigit = true)
    (hu : u = 's' ∨ u = 'm' ∨ u = 'h' ∨ u = 'd' ∨ u = 'w') :
    parseLimit (reqs ++ '/' :: (countS ++ [u])) =
      Except.ok (some (Rate.mk r
        ((if countS = [] then 1 else (digitsVal countS : Int)) * unitDur u))) := by
  have hus : u ≠ '/' := by
    rcases hu with rfl | rfl | rfl | rfl | rfl <;> decide
  have h2 : '/' ∉ countS ++ [u] := by
    intro hm
    rcases List.mem_append.mp hm with h | h
    · exact digits_no_slash hdig h
    · rw [List.mem_singleton] at h
      exact hus h.symm
  rw [parseLimit_split hreqs h2]
  unfold parseLimitParts
  by_cases hc : countS = []
  · subst hc
    rcases hu with rfl | rfl | rfl | rfl | rfl <;>
      simp [List.getLast?_concat, rateWith, hr, unitDur]
  · rcases hu with rfl | rfl | rfl | rfl | rfl <;>
      simp [List.dropLast_concat, List.getLast?_concat, hc, pyIntE,
        pyInt_digits hc hdig, rateWith, hr, unitDur]

/-- Witness for C8 at the descriptor `100/4h` (4 hours in milliseconds). -/
theorem rate_window_parsing_witness :
    parseLimit ("100/4h".toList) =
      Except.ok (some { limit := 100, interval := 14400000 }) :=
  rate_window_parsing ['1', '0', '0'] ['4'] 'h' 100 (by decide) (by decide) (by decide)
    (by decide)

/-- C10: a descriptor whose unit letter is `c` is accepted by the first
arm of the `match unit` statement even though the docstring documents only
`s|m|h|d|w`; the appended tier's interval is ten times the parsed number
(raw, not scaled by any `Duration`), defaulting to 10 when the number is
absent. -/
theorem unit_c_parsing (reqs countS : List Char) (r : Int)
    (hr : pyInt reqs = some r) (hreqs : '/' ∉ reqs)
    (hdig : countS.all Char.isDigit = true) :
    parseLimit (reqs ++ '/' :: (countS ++ ['c'])) =
      Except.ok (some (Rate.mk r
        ((if countS = [] then 1 else (digitsVal countS : Int)) * 10))) := by
  have h2 : '/' ∉ countS ++ ['c'] := by
    intro hm
    rcases List.mem_append.mp hm with h | h
    · exact digits_no_slash hdig h
    · rw [List.mem_singleton] at h
      exact absurd h (by decide)
  rw [parseLimit_split hreqs h2]
  unfold parseLimitParts
  by_cases hc : countS = []
  · subst hc
    simp [List.getLast?_concat, rateWith, hr]
  · simp [List.dropLast_concat, List.getLast?_concat, hc, pyIntE,
      pyInt_digits hc hdig, rateWith, hr]

/-- Witness for C10 at the descriptor `5/3c`. -/
theorem unit_c_parsing_witness :
    parseLimit ("5/3c".toList) = Except.ok (some { limit := 5, interval := 30 }) :=
  unit_c_parsing ['5'] ['3'] 5 (by decide) (by decide) (by decide)
